import Mathlib

/-!
Shallow embedding of `homework.py`: a fitness-tracker module with an
`InfoMessage` record, a `Training` base class, three variants
(`Running`, `SportsWalking`, `Swimming`), and a `read_package` factory.
Python floats are modelled by `ℚ` (all literals in the source are
exactly representable decimals); Python float floor division `//` is
modelled by `Int.floor` of the true quotient.
-/

namespace Homework

/-- `InfoMessage.__init__`: the five fields, in constructor order. -/
structure InfoMessage where
  training_type : String
  duration : ℚ
  distance : ℚ
  speed : ℚ
  calories : ℚ
deriving DecidableEq

/-- Python `f'{x:.3f}'` on a value modelled as a rational: round to the
nearest thousandth with ties to even (IEEE/Python banker's rounding),
then print with exactly three digits after the point. -/
def roundHalfEven (q : ℚ) : ℤ :=
  let f := ⌊q⌋
  let frac := q - f
  if frac < 1/2 then f
  else if 1/2 < frac then f + 1
  else if f % 2 = 0 then f else f + 1

/-- Zero-pad a numeral string on the left to width 3. -/
def pad3 (s : String) : String :=
  String.mk (List.replicate (3 - s.length) '0') ++ s

/-- Render a rational as Python's `f'{x:.3f}'` renders the float. -/
def fmt3 (q : ℚ) : String :=
  let n := roundHalfEven (q * 1000)
  let sign := if n < 0 then "-" else ""
  let m := n.natAbs
  sign ++ toString (m / 1000) ++ "." ++ pad3 (toString (m % 1000))

/-- `InfoMessage.get_message`: the five adjacent f-string segments of the
source, concatenated in order. -/
def InfoMessage.get_message (m : InfoMessage) : String :=
  ("Тип тренировки: " ++ m.training_type ++ "; ")
  ++ ("Длительность: " ++ fmt3 m.duration ++ " ч.; ")
  ++ ("Дистанция: " ++ fmt3 m.distance ++ " км; ")
  ++ ("Ср. скорость: " ++ fmt3 m.speed ++ " км/ч; ")
  ++ ("Потрачено ккал: " ++ fmt3 m.calories ++ ".")

/-- The single literal template of spec §6 with the four numeric fields
formatted to three decimal places (the spec side of claim C9). -/
def specRenderedMessage (m : InfoMessage) : String :=
  "Тип тренировки: " ++ m.training_type ++ "; Длительность: "
    ++ fmt3 m.duration ++ " ч.; Дистанция: " ++ fmt3 m.distance
    ++ " км; Ср. скорость: " ++ fmt3 m.speed ++ " км/ч; Потрачено ккал: "
    ++ fmt3 m.calories ++ "."

/-- `Training.__init__`: raw inputs of the base class. -/
structure Training where
  action : ℚ
  duration : ℚ
  weight : ℚ
deriving DecidableEq

/-- `Training.LEN_STEP = 0.65`. -/
def Training.LEN_STEP : ℚ := 0.65

/-- `Training.M_IN_KM = 1000`. -/
def M_IN_KM : ℚ := 1000

/-- `Training.get_distance`: `action * LEN_STEP / M_IN_KM`. -/
def Training.get_distance (t : Training) : ℚ :=
  t.action * Training.LEN_STEP / M_IN_KM

/-- `Training.get_mean_speed`: `get_distance() / duration`. -/
def Training.get_mean_speed (t : Training) : ℚ :=
  t.get_distance / t.duration

/-- `Training.get_spent_calories`: the base class body is `return 0`. -/
def Training.get_spent_calories (_t : Training) : ℚ := 0

/-- `Running`: subclass with no extra fields. -/
structure Running extends Training
deriving DecidableEq

def Running.get_distance (r : Running) : ℚ := r.toTraining.get_distance

def Running.get_mean_speed (r : Running) : ℚ := r.toTraining.get_mean_speed

/-- `Running.get_spent_calories` with `coeff_calorie_1 = 18`,
`coeff_calorie_2 = 20`, `min_in_hour = 60`. -/
def Running.get_spent_calories (r : Running) : ℚ :=
  ((18 * r.get_mean_speed - 20) * r.weight) / M_IN_KM * (r.duration * 60)

/-- `Running.show_training_info` (inherited body, `__str__` = "Running"). -/
def Running.show_training_info (r : Running) : InfoMessage :=
  ⟨"Running", r.duration, r.get_distance, r.get_mean_speed,
    r.get_spent_calories⟩

/-- `SportsWalking`: subclass adding `height`. -/
structure SportsWalking extends Training where
  height : ℚ
deriving DecidableEq

def SportsWalking.get_distance (w : SportsWalking) : ℚ :=
  w.toTraining.get_distance

def SportsWalking.get_mean_speed (w : SportsWalking) : ℚ :=
  w.toTraining.get_mean_speed

/-- `SportsWalking.get_spent_calories` with `coeff_calorie_1 = 0.035`,
`coeff_calorie_2 = 0.029`, `min_in_hour = 60`; `mean_speed**2 // height`
is Python float floor division, i.e. `⌊speed² / height⌋`. -/
def SportsWalking.get_spent_calories (w : SportsWalking) : ℚ :=
  (0.035 * w.weight
    + (⌊w.get_mean_speed ^ 2 / w.height⌋ : ℚ) * 0.029 * w.weight)
    * w.duration * 60

/-- `SportsWalking.show_training_info` (`__str__` = "SportsWalking"). -/
def SportsWalking.show_training_info (w : SportsWalking) : InfoMessage :=
  ⟨"SportsWalking", w.duration, w.get_distance, w.get_mean_speed,
    w.get_spent_calories⟩

/-- `Swimming`: subclass adding `length_pool` and `count_pool`. -/
structure Swimming extends Training where
  length_pool : ℚ
  count_pool : ℚ
deriving DecidableEq

/-- `Swimming.LEN_STEP = 1.38` (overrides the base constant). -/
def Swimming.LEN_STEP : ℚ := 1.38

/-- `Swimming.get_distance`: the inherited body
`action * self.LEN_STEP / M_IN_KM`, with `self.LEN_STEP` resolving to
the override `1.38`. -/
def Swimming.get_distance (s : Swimming) : ℚ :=
  s.action * Swimming.LEN_STEP / M_IN_KM

/-- `Swimming.get_mean_speed` (override):
`length_pool * count_pool / M_IN_KM / duration`. -/
def Swimming.get_mean_speed (s : Swimming) : ℚ :=
  s.length_pool * s.count_pool / M_IN_KM / s.duration

/-- `Swimming.get_spent_calories` with `coeff_calorie_1 = 1.1`,
`coeff_calorie_2 = 2`. -/
def Swimming.get_spent_calories (s : Swimming) : ℚ :=
  (s.get_mean_speed + 1.1) * 2 * s.weight

/-- `Swimming.show_training_info` (`__str__` = "Swimming"). -/
def Swimming.show_training_info (s : Swimming) : InfoMessage :=
  ⟨"Swimming", s.duration, s.get_distance, s.get_mean_speed,
    s.get_spent_calories⟩

/-- A constructed training object: one of the three concrete variants. -/
inductive TrainingObj where
  | run : Running → TrainingObj
  | wlk : SportsWalking → TrainingObj
  | swm : Swimming → TrainingObj
deriving DecidableEq

/-- The ways `read_package` can raise: a `KeyError` carrying the unknown
`workout_type` (dict lookup miss), or a `TypeError` from unpacking a
wrong-arity `data` list into the named constructor. -/
inductive ReadError where
  | keyError : String → ReadError
  | typeError : String → ReadError
deriving DecidableEq

/-- `read_package(workout_type, data)`: look `workout_type` up in
`{'SWM': Swimming, 'RUN': Running, 'WLK': SportsWalking}` (a miss raises
`KeyError(workout_type)`) and call the constructor with `*data`
(a wrong arity raises `TypeError`). -/
def read_package (workout_type : String) (data : List ℚ) :
    Except ReadError TrainingObj :=
  if workout_type = "SWM" then
    match data with
    | [a, d, w, lp, cp] => .ok (.swm ⟨⟨a, d, w⟩, lp, cp⟩)
    | _ => .error (.typeError "Swimming")
  else if workout_type = "RUN" then
    match data with
    | [a, d, w] => .ok (.run ⟨⟨a, d, w⟩⟩)
    | _ => .error (.typeError "Running")
  else if workout_type = "WLK" then
    match data with
    | [a, d, w, h] => .ok (.wlk ⟨⟨a, d, w⟩, h⟩)
    | _ => .error (.typeError "SportsWalking")
  else .error (.keyError workout_type)

/-- C1 counterexample: calling get_spent_calories on a base Training
instance does not fail — it returns the value 0. -/
theorem base_get_spent_calories_returns_value :
    Training.get_spent_calories ⟨15000, 1, 75⟩ = 0 := rfl

/-- C1 (amended): the base Training.get_spent_calories signals no error at
all; its body is an unconditional return of 0, for every instance. -/
theorem base_get_spent_calories_eq_zero (t : Training) :
    t.get_spent_calories = 0 := rfl

/-- C2: for every workout_type outside the closed set SWM, RUN, WLK and
every data list, read_package fails with a KeyError carrying the
offending code (the UnknownActivityKind of the spec), constructing no
object and defaulting to no variant. -/
theorem read_package_unknown_code_keyError
    (workout_type : String) (data : List ℚ)
    (h1 : workout_type ≠ "SWM") (h2 : workout_type ≠ "RUN")
    (h3 : workout_type ≠ "WLK") :
    read_package workout_type data
      = .error (.keyError workout_type) := by
  simp [read_package, h1, h2, h3]

/-- C2 witness: read_package "XYZ" with data 1, 2, 3 fails with
KeyError "XYZ". -/
theorem read_package_unknown_code_keyError_witness :
    ("XYZ" : String) ≠ "SWM" ∧ ("XYZ" : String) ≠ "RUN"
      ∧ ("XYZ" : String) ≠ "WLK"
      ∧ read_package "XYZ" [1, 2, 3] = .error (.keyError "XYZ") :=
  ⟨by decide, by decide, by decide,
    read_package_unknown_code_keyError "XYZ" [1, 2, 3]
      (by decide) (by decide) (by decide)⟩

/-- C3: SportsWalking.get_spent_calories equals
(0.035 * weight + floorDiv(mean_speed², height) * 0.029 * weight)
* duration * 60 where the middle term is floor division; on a concrete
instance with mean_speed 3 and height 2 the divided term is
floor(9/2) = 4, not 9/2, and the resulting calorie value is 883.35
(true division would give 968.175). -/
theorem sportsWalking_calories_floor_div :
    (∀ w : SportsWalking,
      w.get_spent_calories
        = (0.035 * w.weight
            + (⌊w.get_mean_speed ^ 2 / w.height⌋ : ℚ) * 0.029 * w.weight)
            * w.duration * 60)
    ∧ SportsWalking.get_mean_speed ⟨⟨6000, 13/10, 75⟩, 2⟩ = 3
    ∧ (⌊SportsWalking.get_mean_speed ⟨⟨6000, 13/10, 75⟩, 2⟩ ^ 2
        / SportsWalking.height ⟨⟨6000, 13/10, 75⟩, 2⟩⌋ : ℚ) = 4
    ∧ (⌊SportsWalking.get_mean_speed ⟨⟨6000, 13/10, 75⟩, 2⟩ ^ 2
        / SportsWalking.height ⟨⟨6000, 13/10, 75⟩, 2⟩⌋ : ℚ) ≠ 9/2
    ∧ SportsWalking.get_spent_calories ⟨⟨6000, 13/10, 75⟩, 2⟩ = 17667/20 := by
  refine ⟨fun w => rfl, ?_, ?_, ?_, ?_⟩
  · norm_num [SportsWalking.get_mean_speed, Training.get_mean_speed,
      Training.get_distance, Training.LEN_STEP, M_IN_KM]
  · norm_num [SportsWalking.get_mean_speed, Training.get_mean_speed,
      Training.get_distance, Training.LEN_STEP, M_IN_KM]
  · norm_num [SportsWalking.get_mean_speed, Training.get_mean_speed,
      Training.get_distance, Training.LEN_STEP, M_IN_KM]
  · norm_num [SportsWalking.get_spent_calories, SportsWalking.get_mean_speed,
      Training.get_mean_speed, Training.get_distance, Training.LEN_STEP,
      M_IN_KM]

/-- C4 counterexample: the Running sample's calories are exactly 699.75,
which is not approximately 657.0 (the gap exceeds 42). -/
theorem running_sample_calories_not_657 :
    Running.get_spent_calories ⟨⟨15000, 1, 75⟩⟩ = 2799/4
      ∧ ¬ |Running.get_spent_calories ⟨⟨15000, 1, 75⟩⟩ - 657| ≤ 1 := by
  constructor
  · norm_num [Running.get_spent_calories, Running.get_mean_speed,
      Training.get_mean_speed, Training.get_distance, Training.LEN_STEP,
      M_IN_KM]
  · norm_num [Running.get_spent_calories, Running.get_mean_speed,
      Training.get_mean_speed, Training.get_distance, Training.LEN_STEP,
      M_IN_KM, abs_le]

/-- C4 (amended): the factory on code "RUN" with arguments 15000, 1, 75
yields a Running whose kind is "Running", distance 9.75, speed 9.75, and
calories ((18 * 9.75 - 20) * 75 / 1000) * 1 * 60, which equals exactly
699.75 (not approximately 657.0). -/
theorem running_sample_factory_amended :
    read_package "RUN" [15000, 1, 75] = .ok (.run ⟨⟨15000, 1, 75⟩⟩)
    ∧ (Running.show_training_info ⟨⟨15000, 1, 75⟩⟩).training_type = "Running"
    ∧ Running.get_distance ⟨⟨15000, 1, 75⟩⟩ = 39/4
    ∧ Running.get_mean_speed ⟨⟨15000, 1, 75⟩⟩ = 39/4
    ∧ Running.get_spent_calories ⟨⟨15000, 1, 75⟩⟩
        = ((18 * (39/4) - 20) * 75 / 1000) * 1 * 60
    ∧ ((18 * ((39:ℚ)/4) - 20) * 75 / 1000) * 1 * 60 = 2799/4 := by
  refine ⟨rfl, rfl, ?_, ?_, ?_, by norm_num⟩ <;>
    norm_num [Running.get_spent_calories, Running.get_mean_speed,
      Running.get_distance, Training.get_mean_speed, Training.get_distance,
      Training.LEN_STEP, M_IN_KM]

/-- C5 counterexample: the Swimming sample's distance is exactly 0.9936
(stroke count 720 times 1.38 m), not approximately 0.468. -/
theorem swimming_sample_distance_not_0468 :
    Swimming.get_distance ⟨⟨720, 1, 80⟩, 25, 40⟩ = 621/625
      ∧ ¬ |Swimming.get_distance ⟨⟨720, 1, 80⟩, 25, 40⟩ - 468/1000|
            ≤ 1/100 := by
  constructor
  · norm_num [Swimming.get_distance, Swimming.LEN_STEP, M_IN_KM]
  · norm_num [Swimming.get_distance, Swimming.LEN_STEP, M_IN_KM, abs_le]

/-- C5 (amended): the factory on code "SWM" with arguments 720, 1, 80, 25,
40 yields a Swimming whose kind is "Swimming", distance 0.9936 (not
approximately 0.468), speed 25 * 40 / 1000 / 1 = 1, and calories
(1 + 1.1) * 2 * 80 = 336. -/
theorem swimming_sample_factory_amended :
    read_package "SWM" [720, 1, 80, 25, 40]
        = .ok (.swm ⟨⟨720, 1, 80⟩, 25, 40⟩)
    ∧ (Swimming.show_training_info ⟨⟨720, 1, 80⟩, 25, 40⟩).training_type
        = "Swimming"
    ∧ Swimming.get_distance ⟨⟨720, 1, 80⟩, 25, 40⟩ = 621/625
    ∧ Swimming.get_mean_speed ⟨⟨720, 1, 80⟩, 25, 40⟩ = 1
    ∧ Swimming.get_spent_calories ⟨⟨720, 1, 80⟩, 25, 40⟩ = (1 + 1.1) * 2 * 80
    ∧ ((1:ℚ) + 1.1) * 2 * 80 = 336 := by
  refine ⟨rfl, rfl, ?_, ?_, ?_, by norm_num⟩ <;>
    norm_num [Swimming.get_spent_calories, Swimming.get_mean_speed,
      Swimming.get_distance, Swimming.LEN_STEP, M_IN_KM]

/-- C6: two Swimming instances agreeing on length_pool, count_pool and
duration have equal get_mean_speed, whatever their action fields. -/
theorem swimming_speed_independent_of_action (s1 s2 : Swimming)
    (hl : s1.length_pool = s2.length_pool)
    (hc : s1.count_pool = s2.count_pool)
    (hd : s1.duration = s2.duration) :
    s1.get_mean_speed = s2.get_mean_speed := by
  simp [Swimming.get_mean_speed, hl, hc, hd]

/-- C6 witness: two concrete Swimming instances differing only in action
(720 versus 999) have the same mean speed. -/
theorem swimming_speed_independent_of_action_witness :
    Swimming.length_pool ⟨⟨720, 1, 80⟩, 25, 40⟩
        = Swimming.length_pool ⟨⟨999, 1, 80⟩, 25, 40⟩
    ∧ Swimming.count_pool ⟨⟨720, 1, 80⟩, 25, 40⟩
        = Swimming.count_pool ⟨⟨999, 1, 80⟩, 25, 40⟩
    ∧ Training.duration ⟨720, 1, 80⟩ = Training.duration ⟨999, 1, 80⟩
    ∧ Swimming.get_mean_speed ⟨⟨720, 1, 80⟩, 25, 40⟩
        = Swimming.get_mean_speed ⟨⟨999, 1, 80⟩, 25, 40⟩ :=
  ⟨rfl, rfl, rfl,
    swimming_speed_independent_of_action ⟨⟨720, 1, 80⟩, 25, 40⟩
      ⟨⟨999, 1, 80⟩, 25, 40⟩ rfl rfl rfl⟩

/-- C7: for every Running and every SportsWalking with positive duration,
get_mean_speed equals get_distance divided by duration. -/
theorem mean_speed_eq_distance_div_duration :
    (∀ r : Running, 0 < r.duration
      → r.get_mean_speed = r.get_distance / r.duration)
    ∧ (∀ w : SportsWalking, 0 < w.duration
      → w.get_mean_speed = w.get_distance / w.duration) :=
  ⟨fun _ _ => rfl, fun _ _ => rfl⟩

/-- C7 witness: the speed-distance relation at the sample Running and
SportsWalking instances of duration 1. -/
theorem mean_speed_eq_distance_div_duration_witness :
    (0:ℚ) < 1
    ∧ Running.get_mean_speed ⟨⟨15000, 1, 75⟩⟩
        = Running.get_distance ⟨⟨15000, 1, 75⟩⟩ / 1
    ∧ SportsWalking.get_mean_speed ⟨⟨9000, 1, 75⟩, 180⟩
        = SportsWalking.get_distance ⟨⟨9000, 1, 75⟩, 180⟩ / 1 :=
  ⟨by norm_num,
    mean_speed_eq_distance_div_duration.1 ⟨⟨15000, 1, 75⟩⟩ (by norm_num),
    mean_speed_eq_distance_div_duration.2 ⟨⟨9000, 1, 75⟩, 180⟩
      (by norm_num)⟩

/-- C8: Running and SportsWalking distances equal action * 0.65 / 1000,
Swimming distance equals action * 1.38 / 1000 independent of pool
geometry, and each is non-negative whenever action is non-negative. -/
theorem distance_formula_and_nonneg :
    (∀ r : Running, r.get_distance = r.action * 0.65 / 1000)
    ∧ (∀ w : SportsWalking, w.get_distance = w.action * 0.65 / 1000)
    ∧ (∀ s : Swimming, s.get_distance = s.action * 1.38 / 1000)
    ∧ (∀ r : Running, 0 ≤ r.action → 0 ≤ r.get_distance)
    ∧ (∀ w : SportsWalking, 0 ≤ w.action → 0 ≤ w.get_distance)
    ∧ (∀ s : Swimming, 0 ≤ s.action → 0 ≤ s.get_distance) := by
  refine ⟨fun r => rfl, fun w => rfl, fun s => rfl, ?_, ?_, ?_⟩ <;>
    · intro x hx
      simp only [Running.get_distance, SportsWalking.get_distance,
        Swimming.get_distance, Training.get_distance, Training.LEN_STEP,
        Swimming.LEN_STEP, M_IN_KM]
      positivity

/-- C8 witness: non-negativity of the distances at the three sample
instances, whose actions are non-negative. -/
theorem distance_formula_and_nonneg_witness :
    (0:ℚ) ≤ 15000
    ∧ 0 ≤ Running.get_distance ⟨⟨15000, 1, 75⟩⟩
    ∧ 0 ≤ SportsWalking.get_distance ⟨⟨9000, 1, 75⟩, 180⟩
    ∧ 0 ≤ Swimming.get_distance ⟨⟨720, 1, 80⟩, 25, 40⟩ :=
  ⟨by norm_num,
    distance_formula_and_nonneg.2.2.2.1 ⟨⟨15000, 1, 75⟩⟩ (by norm_num),
    distance_formula_and_nonneg.2.2.2.2.1 ⟨⟨9000, 1, 75⟩, 180⟩
      (by norm_num),
    distance_formula_and_nonneg.2.2.2.2.2 ⟨⟨720, 1, 80⟩, 25, 40⟩
      (by norm_num)⟩

/-- C9: get_message renders exactly the spec template, with the four
numeric fields formatted to three decimal places; on the Running sample
values it yields the exact literal byte string. -/
theorem get_message_template :
    (∀ m : InfoMessage, m.get_message = specRenderedMessage m)
    ∧ InfoMessage.get_message ⟨"Running", 1, 39/4, 39/4, 2799/4⟩
        = "Тип тренировки: Running; Длительность: 1.000 ч.; Дистанция: 9.750 км; Ср. скорость: 9.750 км/ч; Потрачено ккал: 699.750." := by
  constructor
  · intro m
    refine String.ext ?_
    simp [InfoMessage.get_message, specRenderedMessage, String.data_append]
  · have h1 : fmt3 1 = "1.000" := by
      norm_num [fmt3, roundHalfEven]
      decide
    have h2 : fmt3 (39/4) = "9.750" := by
      norm_num [fmt3, roundHalfEven]
      decide
    have h3 : fmt3 (2799/4) = "699.750" := by
      norm_num [fmt3, roundHalfEven]
      decide
    simp only [InfoMessage.get_message, h1, h2, h3]
    decide

/-- C10: a Running activity with positive weight and positive duration
burns strictly negative calories exactly when its mean speed is below
20/18 km/h. -/
theorem running_negative_calories_iff_slow (r : Running)
    (hw : 0 < r.weight) (hd : 0 < r.duration) :
    r.get_spent_calories < 0 ↔ r.get_mean_speed < 20/18 := by
  have key : r.get_spent_calories
      = (18 * r.get_mean_speed - 20) * (r.weight * r.duration * (3/50)) := by
    unfold Running.get_spent_calories M_IN_KM
    ring
  have hpos : 0 < r.weight * r.duration * (3/50) := by positivity
  rw [key, mul_neg_iff]
  constructor
  · rintro (⟨h1, h2⟩ | ⟨h1, h2⟩)
    · exact absurd hpos (not_lt.mpr h2.le)
    · linarith
  · intro h
    exact Or.inr ⟨by linarith, hpos⟩

/-- C10 witness: the Running instance with action 1000, duration 1,
weight 75 has mean speed 0.65, below 20/18, and indeed negative
calories exactly matches that condition. -/
theorem running_negative_calories_iff_slow_witness :
    (0:ℚ) < 75 ∧ (0:ℚ) < 1
    ∧ (Running.get_spent_calories ⟨⟨1000, 1, 75⟩⟩ < 0
        ↔ Running.get_mean_speed ⟨⟨1000, 1, 75⟩⟩ < 20/18) :=
  ⟨by norm_num, by norm_num,
    running_negative_calories_iff_slow ⟨⟨1000, 1, 75⟩⟩
      (by norm_num) (by norm_num)⟩

end Homework
